import Mathlib

/-!
Verification of the "Move Quickly" KLayout tool (iic-jku/klayout-move-tool).

Shallow embedding of the two source modules:
* `pymacros/utils/editor_options.py` — the `AngleMode` angle-constraint logic,
  modelled over `ℝ` (Python floats are idealised as real numbers);
* `pymacros/move_tool_plugin.py` — selection model, move operations and the
  tool state machine.  Integer-type (`itype`) boxes are modelled over `ℤ`,
  database-unit points (`DPoint`) over `ℝ`.  Host-side primitives (KLayout
  view, layout iterators, Qt widgets) are modelled as parameters/effect
  traces; Python runtime errors (TypeError, UnboundLocalError) raised by the
  plugin code itself are modelled with `Except`.
-/

namespace MoveTool

/-- `pya.DPoint`: a point with real (µm) coordinates. -/
@[ext] structure DPoint where
  x : ℝ
  y : ℝ

/-- `pya.DVector`: a displacement with real (µm) coordinates. -/
@[ext] structure DVector where
  x : ℝ
  y : ℝ

/-- Difference of two `DPoint`s, as in `pya` (`DPoint - DPoint = DVector`). -/
noncomputable def DPoint.sub (a b : DPoint) : DVector := ⟨a.x - b.x, a.y - b.y⟩

/-- Sum of two `DVector`s. -/
noncomputable def DVector.add (a b : DVector) : DVector := ⟨a.x + b.x, a.y + b.y⟩

/-- `math.atan2(y, x)`, idealised over the reals via the complex argument. -/
noncomputable def atan2 (y x : ℝ) : ℝ := Complex.arg ⟨x, y⟩

/-- Python's float modulo `a % b`: the remainder with the sign of `b`
(`a - b * floor (a / b)`). -/
noncomputable def pymod (a b : ℝ) : ℝ := a - b * (Int.floor (a / b) : ℝ)

/-- The eight candidate directions of the `DIAGONAL` branch, in source order:
`[0, pi, pi/2, -pi/2, pi/4, -pi/4, 3*pi/4, -3*pi/4]`. -/
noncomputable def diagonal_candidates : List ℝ :=
  [0, Real.pi,
   Real.pi / 2, -(Real.pi / 2),
   Real.pi / 4, -(Real.pi / 4),
   3 * Real.pi / 4, -(3 * Real.pi / 4)]

/-- The signed-circular-distance key used by `min(candidates, key=...)`:
`abs((angle - a + pi) % (2*pi) - pi)`. -/
noncomputable def circular_distance (angle a : ℝ) : ℝ :=
  |pymod (angle - a + Real.pi) (2 * Real.pi) - Real.pi|

/-- `AngleMode` from `utils/editor_options.py`. -/
inductive AngleMode
  | ANY_ANGLE
  | DIAGONAL
  | MANHATTAN
deriving DecidableEq

/-- `AngleMode.constrain_angle` from `utils/editor_options.py` lines 31-73.
Python's `min(candidates, key=...)` keeps the first minimiser, as does
`List.argmin`. -/
noncomputable def AngleMode.constrain_angle (m : AngleMode)
    (origin destination : DPoint) : DPoint :=
  let dx := destination.x - origin.x
  let dy := destination.y - origin.y
  match m with
  | AngleMode.ANY_ANGLE => destination
  | AngleMode.DIAGONAL =>
    let angle := atan2 dy dx
    let best := ((diagonal_candidates.argmin (fun a => circular_distance angle a)).getD 0)
    let ux := Real.cos best
    let uy := Real.sin best
    let dot := ux * dx + uy * dy
    ⟨origin.x + dot * ux, origin.y + dot * uy⟩
  | AngleMode.MANHATTAN =>
    if |dx| > |dy| then
      ⟨origin.x + dx, origin.y⟩
    else
      ⟨origin.x, origin.y + dy⟩

/-- Claim C1 counterexample: at origin `(0,0)`, destination `(1,1)` we have
`|dx| = |dy|` and a non-zero delta, yet the `MANHATTAN` (Orthogonal) branch
does not return the horizontal snap `(origin.x + dx, origin.y) = (1, 0)`:
because only the strict comparison `abs(dx) > abs(dy)` routes to horizontal,
a tie takes the vertical branch and yields `(0, 1)`. -/
theorem c1_counterexample :
    |(1 : ℝ) - 0| = |(1 : ℝ) - 0| ∧
    (⟨1, 1⟩ : DPoint) ≠ (⟨0, 0⟩ : DPoint) ∧
    AngleMode.MANHATTAN.constrain_angle ⟨0, 0⟩ ⟨1, 1⟩ = ⟨0, 1⟩ ∧
    AngleMode.MANHATTAN.constrain_angle ⟨0, 0⟩ ⟨1, 1⟩ ≠ ⟨1, 0⟩ := by
  have hc : AngleMode.MANHATTAN.constrain_angle ⟨0, 0⟩ ⟨1, 1⟩ = ⟨0, 1⟩ := by
    simp [AngleMode.constrain_angle]
  refine ⟨rfl, ?_, hc, ?_⟩
  · intro h
    have := congrArg DPoint.x h
    norm_num at this
  · intro h
    rw [hc] at h
    have := congrArg DPoint.x h
    norm_num at this

/-- Claim C1 (amended): for every origin/destination pair with
`|dx| = |dy|`, the `MANHATTAN` (Orthogonal) constraint returns the
*vertical* snap `(origin.x, origin.y + dy)`: ties are broken toward
vertical, because only the strict comparison `abs(dx) > abs(dy)` routes to
the horizontal branch. -/
theorem c1_manhattan_tie_vertical (origin destination : DPoint)
    (h : |destination.x - origin.x| = |destination.y - origin.y|) :
    AngleMode.MANHATTAN.constrain_angle origin destination =
      ⟨origin.x, origin.y + (destination.y - origin.y)⟩ := by
  simp only [AngleMode.constrain_angle]
  rw [if_neg]
  rw [h]
  exact lt_irrefl _

/-- Witness for `c1_manhattan_tie_vertical` at origin `(0,0)`,
destination `(1,1)`. -/
theorem c1_manhattan_tie_vertical_witness :
    |((⟨1, 1⟩ : DPoint)).x - ((⟨0, 0⟩ : DPoint)).x| =
      |((⟨1, 1⟩ : DPoint)).y - ((⟨0, 0⟩ : DPoint)).y| ∧
    AngleMode.MANHATTAN.constrain_angle ⟨0, 0⟩ ⟨1, 1⟩ =
      ⟨(0 : ℝ), (0 : ℝ) + ((1 : ℝ) - 0)⟩ :=
  ⟨rfl, c1_manhattan_tie_vertical ⟨0, 0⟩ ⟨1, 1⟩ rfl⟩

/-- Euclidean length of the displacement between two `DPoint`s. -/
noncomputable def dpointDist (p q : DPoint) : ℝ :=
  Real.sqrt ((p.x - q.x) ^ 2 + (p.y - q.y) ^ 2)

/-- The first minimiser of the circular-distance key over the eight diagonal
candidates, i.e. the `best` angle picked by the `DIAGONAL` branch. -/
noncomputable def diagonal_best (angle : ℝ) : ℝ :=
  (diagonal_candidates.argmin (fun a => circular_distance angle a)).getD 0

lemma diagonal_best_mem (angle : ℝ) : diagonal_best angle ∈ diagonal_candidates := by
  unfold diagonal_best
  cases h : diagonal_candidates.argmin (fun a => circular_distance angle a) with
  | none =>
    exfalso
    have := List.argmin_eq_none.mp h
    simp [diagonal_candidates] at this
  | some m =>
    simpa using List.argmin_mem h

lemma constrain_angle_diagonal_eq (origin destination : DPoint) :
    AngleMode.DIAGONAL.constrain_angle origin destination =
      let dx := destination.x - origin.x
      let dy := destination.y - origin.y
      let best := diagonal_best (atan2 dy dx)
      let ux := Real.cos best
      let uy := Real.sin best
      let dot := ux * dx + uy * dy
      ⟨origin.x + dot * ux, origin.y + dot * uy⟩ := by
  simp [AngleMode.constrain_angle, diagonal_best]

/-- Claim C6: for every origin/destination pair, the `DIAGONAL` (Diagonal45)
constraint's displacement from the origin lies along one of the eight
canonical candidate angles — namely the nearest one by the signed circular
distance to the raw `(dx, dy)` angle (the first minimiser of the key
`abs((angle - a + pi) % (2*pi) - pi)`) — and its magnitude is at most
`|destination - origin|`. -/
theorem c6_diagonal45 : ∀ origin destination : DPoint,
    ∃ a ∈ diagonal_candidates,
      a = diagonal_best (atan2 (destination.y - origin.y) (destination.x - origin.x)) ∧
      ∃ t : ℝ,
        (AngleMode.DIAGONAL.constrain_angle origin destination).x - origin.x
            = t * Real.cos a ∧
        (AngleMode.DIAGONAL.constrain_angle origin destination).y - origin.y
            = t * Real.sin a ∧
        dpointDist (AngleMode.DIAGONAL.constrain_angle origin destination) origin
            ≤ dpointDist destination origin := by
  intro origin destination
  set dx := destination.x - origin.x with hdx
  set dy := destination.y - origin.y with hdy
  set best := diagonal_best (atan2 dy dx) with hbest
  refine ⟨best, diagonal_best_mem _, rfl, ?_⟩
  set ux := Real.cos best with hux
  set uy := Real.sin best with huy
  set dot := ux * dx + uy * dy with hdot
  have hres : AngleMode.DIAGONAL.constrain_angle origin destination =
      ⟨origin.x + dot * ux, origin.y + dot * uy⟩ := by
    rw [constrain_angle_diagonal_eq]
  refine ⟨dot, ?_, ?_, ?_⟩
  · rw [hres]; ring
  · rw [hres]; ring
  · rw [hres]
    unfold dpointDist
    apply Real.sqrt_le_sqrt
    have hunit : ux ^ 2 + uy ^ 2 = 1 := by
      rw [hux, huy]
      exact Real.cos_sq_add_sin_sq best
    have hexp : dx ^ 2 + dy ^ 2 - dot ^ 2 = (ux * dy - uy * dx) ^ 2 := by
      rw [hdot]
      linear_combination (-(dx ^ 2) - dy ^ 2) * hunit
    have hdotsq : dot ^ 2 ≤ dx ^ 2 + dy ^ 2 := by
      linarith [hexp, sq_nonneg (ux * dy - uy * dx)]
    have hkey : (dot * ux) ^ 2 + (dot * uy) ^ 2 ≤ dx ^ 2 + dy ^ 2 := by
      calc (dot * ux) ^ 2 + (dot * uy) ^ 2 = dot ^ 2 * (ux ^ 2 + uy ^ 2) := by ring
        _ = dot ^ 2 := by rw [hunit, mul_one]
        _ ≤ dx ^ 2 + dy ^ 2 := hdotsq
    calc (origin.x + dot * ux - origin.x) ^ 2 + (origin.y + dot * uy - origin.y) ^ 2
        = (dot * ux) ^ 2 + (dot * uy) ^ 2 := by ring
      _ ≤ dx ^ 2 + dy ^ 2 := hkey
      _ = (destination.x - origin.x) ^ 2 + (destination.y - origin.y) ^ 2 := by
          rw [hdx, hdy]

/-- `pya.Point`: an integer-coordinate (database-unit) point. -/
@[ext] structure Point where
  x : ℤ
  y : ℤ
deriving DecidableEq

/-- `pya.Box`: an integer-coordinate (itype) axis-aligned box. -/
@[ext] structure Box where
  left : ℤ
  bottom : ℤ
  right : ℤ
  top : ℤ
deriving DecidableEq

/-- KLayout's box join (`Box + Box`): the bounding box of both boxes.  This is
what accumulating boxes into a `pya.Region` and taking `Region.bbox()`
computes. -/
def boxJoin (a b : Box) : Box :=
  ⟨min a.left b.left, min a.bottom b.bottom, max a.right b.right, max a.top b.top⟩

/-- KLayout `Box.inside(other)`: the candidate box lies fully inside the
search box. -/
def Box.inside (b s : Box) : Bool :=
  decide (s.left ≤ b.left ∧ b.right ≤ s.right ∧ s.bottom ≤ b.bottom ∧ b.top ≤ s.top)

/-- KLayout `Box.touches(other)`: the two boxes share at least one point
(overlap or touch at an edge/corner). -/
def Box.touches (b s : Box) : Bool :=
  decide (b.left ≤ s.right ∧ s.left ≤ b.right ∧ b.bottom ≤ s.top ∧ s.bottom ≤ b.top)

/-- `ContainmentConstraint` from `move_tool_plugin.py` lines 43-54. -/
inductive ContainmentConstraint
  | SEARCH_BOX_ENCLOSES_OBJECT
  | SEARCH_BOX_OVERLAPS_OBJECT
deriving DecidableEq

/-- `ContainmentConstraint.matches` from `move_tool_plugin.py` lines 47-54. -/
def ContainmentConstraint.matches (cc : ContainmentConstraint)
    (search_box candidate_box : Box) : Bool :=
  match cc with
  | .SEARCH_BOX_ENCLOSES_OBJECT => candidate_box.inside search_box
  | .SEARCH_BOX_OVERLAPS_OBJECT => candidate_box.touches search_box

/-- One element of an `ObjectInstPath` (`pya.InstElement`); `inst` is the
identity of the referenced `pya.Instance`. -/
structure InstElement where
  inst : Nat
deriving DecidableEq

/-- `pya.ObjectInstPath` as the plugin consumes it: a chain of instantiation
elements, an optional shape (identified by id) and its layer. -/
structure ObjectInstPath where
  path : List InstElement
  shape : Option Nat
  layer : ℤ
deriving DecidableEq

/-- `SelectableObject` with its two dataclass variants (`ShapeOfInstance`,
`Instance`) from `move_tool_plugin.py` lines 56-70.  Instances and shapes
are identified by ids; `bbox` is the stored bounding box. -/
inductive SelectableObject
  | ShapeOfInstance (path : ObjectInstPath) (bbox : Box) (shape : Nat) (layer : ℤ)
  | Instance (path : ObjectInstPath) (bbox : Box) (inst : Nat)
deriving DecidableEq

/-- The stored `bbox` field of a `SelectableObject`. -/
def SelectableObject.bbox : SelectableObject → Box
  | .ShapeOfInstance _ b _ _ => b
  | .Instance _ b _ => b

/-- The stored `path` field of a `SelectableObject`. -/
def SelectableObject.path : SelectableObject → ObjectInstPath
  | .ShapeOfInstance p _ _ _ => p
  | .Instance p _ _ => p

/-- `pya.Region` as the plugin uses it: a container of inserted boxes. -/
structure Region where
  boxes : List Box
deriving DecidableEq

/-- `Region.insert(box)`. -/
def Region.insert (r : Region) (b : Box) : Region := ⟨r.boxes ++ [b]⟩

/-- One step of the bounding-box accumulation behind `Region.bbox()`. -/
def joinStep (acc : Option Box) (b : Box) : Option Box :=
  some (match acc with
        | none => b
        | some a => boxJoin a b)

/-- `Region.bbox()`: the bounding box of all inserted boxes (`none` for an
empty region, which KLayout renders as the empty box). -/
def Region.bbox (r : Region) : Option Box := r.boxes.foldl joinStep none

/-- `MoveQuicklyToolSelection` from `move_tool_plugin.py` lines 73-75. -/
structure MoveQuicklyToolSelection where
  objects : List SelectableObject
deriving DecidableEq

/-- `MoveQuicklyToolSelection.bbox` from `move_tool_plugin.py` lines 83-88:
insert every member's box into a fresh `Region` and take its bbox. -/
def MoveQuicklyToolSelection.bbox (s : MoveQuicklyToolSelection) : Option Box :=
  (s.objects.foldl (fun (r : Region) o => r.insert o.bbox) (Region.mk [])).bbox

/-- `MoveQuicklyToolSelection.position` from `move_tool_plugin.py` lines
90-92: the bottom-left corner of the selection bbox. -/
def MoveQuicklyToolSelection.position (s : MoveQuicklyToolSelection) : Option Point :=
  s.bbox.map (fun b => ⟨b.left, b.bottom⟩)

/-- The union bounding box of a list of boxes, as the spec words it
("`bbox` = union of all member boxes"): the join of all boxes, `none` when
there are no members. -/
def spec_union_bbox : List Box → Option Box
  | [] => none
  | b :: rest => some (rest.foldl boxJoin b)

lemma boxJoin_comm (a b : Box) : boxJoin a b = boxJoin b a := by
  unfold boxJoin
  ext <;> simp [min_comm, max_comm]

lemma boxJoin_right_comm (a b c : Box) :
    boxJoin (boxJoin a b) c = boxJoin (boxJoin a c) b := by
  unfold boxJoin
  ext <;> simp [min_right_comm, sup_right_comm]

lemma joinStep_right_comm (acc : Option Box) (a b : Box) :
    joinStep (joinStep acc a) b = joinStep (joinStep acc b) a := by
  cases acc with
  | none => simp [joinStep, boxJoin_comm a b]
  | some c => simp [joinStep, boxJoin_right_comm c a b]

lemma foldl_joinStep_perm {l₁ l₂ : List Box} (h : l₁.Perm l₂) :
    ∀ acc, l₁.foldl joinStep acc = l₂.foldl joinStep acc := by
  induction h with
  | nil => intro acc; rfl
  | cons x _ ih => intro acc; simp only [List.foldl_cons]; exact ih _
  | swap x y l =>
      intro acc
      simp only [List.foldl_cons]
      rw [joinStep_right_comm]
  | trans _ _ ih₁ ih₂ => intro acc; exact (ih₁ acc).trans (ih₂ acc)

lemma region_fold_boxes (l : List SelectableObject) (init : List Box) :
    ((l.foldl (fun r o => r.insert o.bbox) ⟨init⟩ : Region)).boxes
      = init ++ l.map SelectableObject.bbox := by
  induction l generalizing init with
  | nil => simp
  | cons o rest ih =>
      simp only [List.foldl_cons, List.map_cons]
      rw [ih]
      simp [Region.insert]

lemma selection_bbox_eq_foldl (s : MoveQuicklyToolSelection) :
    s.bbox = (s.objects.map SelectableObject.bbox).foldl joinStep none := by
  unfold MoveQuicklyToolSelection.bbox Region.bbox
  rw [region_fold_boxes]
  simp

lemma foldl_joinStep_some (a : Box) (l : List Box) :
    l.foldl joinStep (some a) = some (l.foldl boxJoin a) := by
  induction l generalizing a with
  | nil => rfl
  | cons b rest ih => simp only [List.foldl_cons, joinStep]; exact ih _

lemma selection_bbox_eq_spec_union (s : MoveQuicklyToolSelection) :
    s.bbox = spec_union_bbox (s.objects.map SelectableObject.bbox) := by
  rw [selection_bbox_eq_foldl]
  cases h : s.objects.map SelectableObject.bbox with
  | nil => rfl
  | cons b rest =>
      simp only [List.foldl_cons, joinStep, spec_union_bbox]
      exact foldl_joinStep_some b rest

/-- Claim C8: a selection's bbox equals the union (join) of all member
bounding boxes; in particular a single-member selection's bbox is that
member's bbox; the bbox is invariant under permutation of the member list;
and the anchor position is the bbox's bottom-left corner. -/
theorem c8_bbox_union :
    (∀ s : MoveQuicklyToolSelection,
        s.bbox = spec_union_bbox (s.objects.map SelectableObject.bbox)) ∧
    (∀ o : SelectableObject, (MoveQuicklyToolSelection.mk [o]).bbox = some o.bbox) ∧
    (∀ s t : MoveQuicklyToolSelection, s.objects.Perm t.objects → s.bbox = t.bbox) ∧
    (∀ s : MoveQuicklyToolSelection,
        s.position = s.bbox.map (fun b => Point.mk b.left b.bottom)) := by
  refine ⟨selection_bbox_eq_spec_union, ?_, ?_, ?_⟩
  · intro o
    rw [selection_bbox_eq_spec_union]
    rfl
  · intro s t h
    rw [selection_bbox_eq_foldl, selection_bbox_eq_foldl]
    exact foldl_joinStep_perm (h.map SelectableObject.bbox) none
  · intro s
    rfl

/-- Witness for `c8_bbox_union` (third conjunct, the one with a hypothesis):
a two-member selection and its swap have equal bboxes. -/
theorem c8_bbox_union_witness :
    ([SelectableObject.Instance ⟨[⟨1⟩], none, 0⟩ ⟨0, 0, 2, 2⟩ 1,
      SelectableObject.ShapeOfInstance ⟨[], some 7, 3⟩ ⟨1, 1, 5, 4⟩ 7 3].Perm
     [SelectableObject.ShapeOfInstance ⟨[], some 7, 3⟩ ⟨1, 1, 5, 4⟩ 7 3,
      SelectableObject.Instance ⟨[⟨1⟩], none, 0⟩ ⟨0, 0, 2, 2⟩ 1]) ∧
    (MoveQuicklyToolSelection.mk
      [SelectableObject.Instance ⟨[⟨1⟩], none, 0⟩ ⟨0, 0, 2, 2⟩ 1,
       SelectableObject.ShapeOfInstance ⟨[], some 7, 3⟩ ⟨1, 1, 5, 4⟩ 7 3]).bbox =
    (MoveQuicklyToolSelection.mk
      [SelectableObject.ShapeOfInstance ⟨[], some 7, 3⟩ ⟨1, 1, 5, 4⟩ 7 3,
       SelectableObject.Instance ⟨[⟨1⟩], none, 0⟩ ⟨0, 0, 2, 2⟩ 1]).bbox :=
  ⟨List.Perm.swap _ _ _,
   c8_bbox_union.2.2.1 _ _ (List.Perm.swap _ _ _)⟩

/-- `MouseMoveOperation` from `move_tool_plugin.py` lines 134-145. -/
structure MouseMoveOperation where
  original_position : DPoint
  snapped_position : DPoint
  from_cursor : DPoint
  to_cursor : DPoint
  snapped_cursor_delta : DVector

/-- `MouseMoveOperation.effective_delta` from `move_tool_plugin.py` lines
142-145: `snapped_position - original_position + snapped_cursor_delta`. -/
noncomputable def MouseMoveOperation.effective_delta (op : MouseMoveOperation) : DVector :=
  (op.snapped_position.sub op.original_position).add op.snapped_cursor_delta

/-- `TextMoveOperation` from `move_tool_plugin.py` lines 148-159. -/
structure TextMoveOperation where
  original_position : DPoint
  x : ℝ
  y : ℝ
  dx : ℝ
  dy : ℝ

/-- `TextMoveOperation.effective_delta` from `move_tool_plugin.py` lines
157-159: `DPoint(x, y) - original_position + DVector(dx, dy)`. -/
noncomputable def TextMoveOperation.effective_delta (op : TextMoveOperation) : DVector :=
  ((⟨op.x, op.y⟩ : DPoint).sub op.original_position).add ⟨op.dx, op.dy⟩

/-- The closed `MoveOperation` variant type (`MouseMoveOperation` or
`TextMoveOperation`). -/
inductive MoveOperation
  | mouse (op : MouseMoveOperation)
  | text (op : TextMoveOperation)

/-- Dispatch of `effective_delta` over the two `MoveOperation` variants. -/
noncomputable def MoveOperation.effective_delta : MoveOperation → DVector
  | .mouse op => op.effective_delta
  | .text op => op.effective_delta

/-- Degenerate case of the angle constraint: when origin = destination every
mode returns the origin. -/
lemma constrain_angle_self (m : AngleMode) (p : DPoint) :
    m.constrain_angle p p = p := by
  cases m with
  | ANY_ANGLE => rfl
  | DIAGONAL =>
      rw [constrain_angle_diagonal_eq]
      ext <;> simp
  | MANHATTAN =>
      simp only [AngleMode.constrain_angle, sub_self, abs_zero, gt_iff_lt, lt_irrefl,
        if_false, add_zero]

/-- Construction of the `MouseMoveOperation` in `mouse_moved_event`
(`move_tool_plugin.py` lines 756-770): snap both cursors, constrain the
angle between them, and record the snapped/original anchor positions.
`snap` stands for `EditorOptions.snap_to_grid_if_necessary`, which lives in
the external `klayout_plugin_utils` package; it is kept as an arbitrary
parameter since no claim depends on its definition. -/
noncomputable def build_mouse_move_operation (snap : DPoint → DPoint) (mode : AngleMode)
    (move_from_dpoint dpoint orig_pos : DPoint) : MouseMoveOperation :=
  let snapped_from_cursor := snap move_from_dpoint
  let snapped_to_cursor := snap dpoint
  let constrained_to_cursor := mode.constrain_angle snapped_from_cursor snapped_to_cursor
  let delta := constrained_to_cursor.sub snapped_from_cursor
  let pos := snap orig_pos
  ⟨orig_pos, pos, move_from_dpoint, dpoint, delta⟩

/-- Claim C5: `MouseMoveOperation.effective_delta` equals
`(snapped anchor - original anchor) + snapped cursor delta`; in particular,
for a move built with zero cursor motion (`to_cursor = from_cursor`) and an
anchor already on-grid (`snap orig_pos = orig_pos`) it returns the zero
vector, for every snap function and every angle mode. -/
theorem c5_effective_delta :
    (∀ op : MouseMoveOperation,
        op.effective_delta
          = (op.snapped_position.sub op.original_position).add op.snapped_cursor_delta) ∧
    (∀ (snap : DPoint → DPoint) (mode : AngleMode) (cursor orig_pos : DPoint),
        snap orig_pos = orig_pos →
        (build_mouse_move_operation snap mode cursor cursor orig_pos).effective_delta
          = ⟨0, 0⟩) := by
  constructor
  · intro op
    rfl
  · intro snap mode cursor orig_pos h
    unfold build_mouse_move_operation MouseMoveOperation.effective_delta
    simp only [h, constrain_angle_self]
    ext <;> simp [DPoint.sub, DVector.add]

/-- Witness for `c5_effective_delta` (second conjunct) with the identity
snap function, `ANY_ANGLE` mode and all points at the origin. -/
theorem c5_effective_delta_witness :
    id (⟨0, 0⟩ : DPoint) = (⟨0, 0⟩ : DPoint) ∧
    (build_mouse_move_operation id AngleMode.ANY_ANGLE ⟨0, 0⟩ ⟨0, 0⟩ ⟨0, 0⟩).effective_delta
      = (⟨0, 0⟩ : DVector) :=
  ⟨rfl, c5_effective_delta.2 id AngleMode.ANY_ANGLE ⟨0, 0⟩ ⟨0, 0⟩ rfl⟩

/-- The host-side geometry accessors used by `selected_objects`
(`move_tool_plugin.py` lines 413-429): `o.shape.bbox().transformed(o.source_trans())`
for shapes and `inst.bbox()` for instances.  These are KLayout primitives
consumed as a contract, keyed by object identity. -/
structure Host where
  shapeBBoxTransformed : Nat → Box
  instBBox : Nat → Box

/-- The per-entry contribution of the loop body of `selected_objects`
(`move_tool_plugin.py` lines 415-423): an empty-path entry contributes a
`ShapeOfInstance` when its shape accessor is present and nothing otherwise;
a non-empty-path entry contributes an `Instance` for its top-most path
element. -/
def selected_objects_list (host : Host) : List ObjectInstPath → List SelectableObject
  | [] => []
  | o :: rest =>
    (match o.path with
     | [] =>
        match o.shape with
        | some sh => [SelectableObject.ShapeOfInstance o (host.shapeBBoxTransformed sh) sh o.layer]
        | none => []
     | ie :: _ => [SelectableObject.Instance o (host.instBBox ie.inst) ie.inst])
    ++ selected_objects_list host rest

/-- `selected_objects` from `move_tool_plugin.py` lines 413-429: build the
member list from the host's selected entries and return `None` when it is
empty. -/
def selected_objects (host : Host) (entries : List ObjectInstPath) :
    Option MoveQuicklyToolSelection :=
  let so := selected_objects_list host entries
  if so.length = 0 then none else some ⟨so⟩

lemma selected_objects_list_all_skipped (host : Host) (entries : List ObjectInstPath)
    (h : ∀ e ∈ entries, e.path = [] ∧ e.shape = none) :
    selected_objects_list host entries = [] := by
  induction entries with
  | nil => rfl
  | cons o rest ih =>
      have ho := h o (List.mem_cons_self o rest)
      simp only [selected_objects_list, ho.1, ho.2]
      exact ih (fun e he => h e (List.mem_cons_of_mem o he))

/-- Claim C10: when the host reports zero selected entries, or every entry
has an empty path and a missing shape accessor, `selected_objects` returns
`none` (not a selection with an empty member list); and every selection it
does produce has at least one member, so "no selection" is always `none` at
this interface. -/
theorem c10_selected_objects : ∀ (host : Host) (entries : List ObjectInstPath),
    (entries = [] → selected_objects host entries = none) ∧
    ((∀ e ∈ entries, e.path = [] ∧ e.shape = none) →
        selected_objects host entries = none) ∧
    (∀ sel, selected_objects host entries = some sel → sel.objects ≠ []) := by
  intro host entries
  refine ⟨?_, ?_, ?_⟩
  · intro h
    subst h
    rfl
  · intro h
    simp [selected_objects, selected_objects_list_all_skipped host entries h]
  · intro sel hsel
    unfold selected_objects at hsel
    by_cases hlen : (selected_objects_list host entries).length = 0
    · simp [hlen] at hsel
    · simp [hlen] at hsel
      intro hobj
      apply hlen
      rw [show selected_objects_list host entries = sel.objects from by rw [← hsel], hobj]
      rfl

/-- Witness for `c10_selected_objects`: a host whose every bbox is the unit
box; one all-skipped entry yields `none` (second conjunct), and one
instance entry yields a selection with a non-empty member list (third
conjunct). -/
theorem c10_selected_objects_witness :
    ((∀ e ∈ [(⟨[], none, 0⟩ : ObjectInstPath)], e.path = [] ∧ e.shape = none) ∧
      selected_objects ⟨fun _ => ⟨0, 0, 1, 1⟩, fun _ => ⟨0, 0, 1, 1⟩⟩
        [(⟨[], none, 0⟩ : ObjectInstPath)] = none) ∧
    (selected_objects ⟨fun _ => ⟨0, 0, 1, 1⟩, fun _ => ⟨0, 0, 1, 1⟩⟩
        [(⟨[⟨4⟩], none, 0⟩ : ObjectInstPath)]
      = some ⟨[SelectableObject.Instance ⟨[⟨4⟩], none, 0⟩ ⟨0, 0, 1, 1⟩ 4]⟩ ∧
     (MoveQuicklyToolSelection.mk
        [SelectableObject.Instance ⟨[⟨4⟩], none, 0⟩ ⟨0, 0, 1, 1⟩ 4]).objects ≠ []) :=
  ⟨⟨by decide,
    (c10_selected_objects ⟨fun _ => ⟨0, 0, 1, 1⟩, fun _ => ⟨0, 0, 1, 1⟩⟩
        [(⟨[], none, 0⟩ : ObjectInstPath)]).2.1 (by decide)⟩,
   ⟨rfl,
    (c10_selected_objects ⟨fun _ => ⟨0, 0, 1, 1⟩, fun _ => ⟨0, 0, 1, 1⟩⟩
        [(⟨[⟨4⟩], none, 0⟩ : ObjectInstPath)]).2.2 _ rfl⟩⟩

/-- `MoveQuicklyToolState` from `move_tool_plugin.py` lines 36-40. -/
inductive MoveQuicklyToolState
  | INACTIVE
  | SELECTING
  | DRAG_SELECTING
  | MOVING
deriving DecidableEq

/-- The mutable plugin fields that the key/commit handlers touch
(`move_tool_plugin.py` lines 351-370); markers are modelled by their
count. -/
structure MoveQuicklyToolPluginState where
  state : MoveQuicklyToolState
  selection : Option MoveQuicklyToolSelection
  move_operation : Option MoveOperation
  move_preview_markers : Nat
  drag_selection_markers : Nat

/-- Python runtime errors raised by the plugin's own code. -/
inductive PyError
  | typeError
  | unboundLocalError
deriving DecidableEq

/-- Host mutations performed through the narrow KLayout interface.
Transform effects carry the applied translation (the `pya.DTrans` built
from the effective delta). -/
inductive HostEffect
  | beginTransaction
  | commitTransaction
  | transformInst (inst : Nat) (delta : DVector)
  | transformShape (shape : Nat) (delta : DVector)
  | setObjectSelection (numPaths : Nat)
  | updateDockPositionValues

/-- Whether an effect opens a transaction. -/
def HostEffect.isBeginTransaction : HostEffect → Bool
  | .beginTransaction => true
  | _ => false

/-- Whether an effect commits (closes) a transaction. -/
def HostEffect.isCommitTransaction : HostEffect → Bool
  | .commitTransaction => true
  | _ => false

/-- The per-object mutation of `MoveQuicklyToolSelection.transform`
(`move_tool_plugin.py` lines 113-125): instances get their path reset to
their own `InstElement`; directly-owned shapes get their path's shape
refreshed; shapes inside subcells are skipped. -/
def SelectableObject.transformed : SelectableObject → SelectableObject
  | .Instance p b i => .Instance ⟨[⟨i⟩], p.shape, p.layer⟩ b i
  | .ShapeOfInstance p b sh l =>
      if p.path = [] then .ShapeOfInstance ⟨p.path, some sh, p.layer⟩ b sh l
      else .ShapeOfInstance p b sh l

/-- The host mutation issued for one object by
`MoveQuicklyToolSelection.transform`: instances are translated as whole
placements; shapes are translated directly only when their path is empty. -/
def SelectableObject.transform_effect (delta : DVector) :
    SelectableObject → Option HostEffect
  | .Instance _ _ i => some (.transformInst i delta)
  | .ShapeOfInstance p _ sh _ =>
      if p.path = [] then some (.transformShape sh delta) else none

/-- `MoveQuicklyToolSelection.transform` (`move_tool_plugin.py` lines
113-125) as updated members plus the list of host mutations, in member
order. -/
def MoveQuicklyToolSelection.transform (sel : MoveQuicklyToolSelection)
    (delta : DVector) : MoveQuicklyToolSelection × List HostEffect :=
  (⟨sel.objects.map SelectableObject.transformed⟩,
   sel.objects.filterMap (SelectableObject.transform_effect delta))

/-- `commit_move` from `move_tool_plugin.py` lines 885-920.  `raiseAt`
models an exception raised by the host on the k-th translation inside the
`try` block (`none` = no exception); the `finally` block always runs:
`view.commit()`, the state reset, the re-selection of the (still
`sel.objects.length` many) paths, and the re-derivation of the selection
from the host's post-commit entries `entriesAfter`.  The returned `Bool`
tells whether the exception propagates onward. -/
noncomputable def commit_move (st : MoveQuicklyToolPluginState)
    (operation : Option MoveOperation) (raiseAt : Option Nat) (host : Host)
    (entriesAfter : List ObjectInstPath) :
    MoveQuicklyToolPluginState × List HostEffect × Bool :=
  let st0 := {st with move_preview_markers := 0, drag_selection_markers := 0}
  match st0.selection with
  | none => ({st0 with state := .SELECTING}, [], false)
  | some sel =>
    match operation with
    | none => ({st0 with state := .SELECTING}, [], false)
    | some op =>
      let delta := op.effective_delta
      let tFull := (sel.transform delta).2
      let tEffs := match raiseAt with
        | none => tFull
        | some k => tFull.take k
      let raised := match raiseAt with
        | none => false
        | some _ => true
      let effects := [HostEffect.beginTransaction] ++ tEffs
        ++ [HostEffect.commitTransaction,
            HostEffect.setObjectSelection sel.objects.length]
      ({st0 with state := .SELECTING,
                 selection := selected_objects host entriesAfter},
       effects, raised)

/-- Keyboard input: the key codes the handler distinguishes and the
modifier/button mask. -/
inductive KeyCode
  | Tab
  | EnterOrReturn
  | Other
deriving DecidableEq

/-- The `buttons` bitmask of a key/mouse event, as the flags the plugin
tests. -/
structure ButtonState where
  shift : Bool
  leftButton : Bool
  rightButton : Bool
deriving DecidableEq

/-- `key_event` from `move_tool_plugin.py` lines 851-883.  The Enter/Return
branch calls `self.commit_move()` without the required positional argument
`operation` of `commit_move(self, operation)`, so Python raises a
`TypeError` before any transaction is opened; this call is embedded as
`.error .typeError`. -/
def key_event (st : MoveQuicklyToolPluginState) (key : KeyCode)
    (buttons : ButtonState) :
    Except PyError (MoveQuicklyToolPluginState × List HostEffect × Bool) :=
  if buttons.shift = true ∧ st.state = MoveQuicklyToolState.MOVING then
    .ok ({st with state := .SELECTING, move_preview_markers := 0}, [], true)
  else
    match key with
    | .Tab =>
      match st.selection with
      | some _ =>
          .ok ({st with move_preview_markers := 0}, [.updateDockPositionValues], true)
      | none => .ok (st, [], false)
    | .EnterOrReturn =>
      match st.selection with
      | some _ => .error PyError.typeError
      | none => .ok (st, [], false)
    | .Other => .ok (st, [], false)

lemma transform_effect_no_transaction (delta : DVector) (o : SelectableObject)
    (e : HostEffect) (h : SelectableObject.transform_effect delta o = some e) :
    e.isBeginTransaction = false ∧ e.isCommitTransaction = false := by
  cases o with
  | Instance p b i =>
      simp only [SelectableObject.transform_effect, Option.some.injEq] at h
      subst h
      exact ⟨rfl, rfl⟩
  | ShapeOfInstance p b sh l =>
      simp only [SelectableObject.transform_effect] at h
      by_cases hp : p.path = []
      · simp only [hp, if_true, Option.some.injEq] at h
        subst h
        exact ⟨rfl, rfl⟩
      · simp [hp] at h

lemma transform_effects_countP_zero (delta : DVector)
    (sel : MoveQuicklyToolSelection) (k : List HostEffect) (hk : k ⊆ (sel.transform delta).2) :
    k.countP HostEffect.isBeginTransaction = 0 ∧
    k.countP HostEffect.isCommitTransaction = 0 := by
  constructor <;>
  · rw [List.countP_eq_zero]
    intro e he
    have hmem := hk he
    simp only [MoveQuicklyToolSelection.transform, List.mem_filterMap] at hmem
    obtain ⟨o, _, ho⟩ := hmem
    have := transform_effect_no_transaction delta o e ho
    simp [this.1, this.2]

/-- Claim C4: whenever `commit_move` runs with a present selection and a
present operation, the transaction opened at the start is closed exactly
once — also when the host raises during transform application (`raiseAt =
some k`), because the close happens in the `finally` block — and the tool
state is reset to `SELECTING`. -/
theorem c4_commit_closes_transaction :
    ∀ (st : MoveQuicklyToolPluginState) (sel : MoveQuicklyToolSelection)
      (op : MoveOperation) (raiseAt : Option Nat) (host : Host)
      (entriesAfter : List ObjectInstPath),
    st.selection = some sel →
    ((commit_move st (some op) raiseAt host entriesAfter).2.1.countP
        HostEffect.isBeginTransaction = 1 ∧
     (commit_move st (some op) raiseAt host entriesAfter).2.1.countP
        HostEffect.isCommitTransaction = 1 ∧
     (commit_move st (some op) raiseAt host entriesAfter).1.state
        = MoveQuicklyToolState.SELECTING) := by
  intro st sel op raiseAt host entriesAfter hsel
  have hfull := transform_effects_countP_zero op.effective_delta sel
      ((sel.transform op.effective_delta).2) (fun _ h => h)
  cases raiseAt with
  | none =>
      simp only [commit_move, hsel]
      refine ⟨?_, ?_, ?_⟩ <;>
        simp [List.countP_append, List.countP_cons, hfull.1, hfull.2,
              HostEffect.isBeginTransaction, HostEffect.isCommitTransaction]
  | some k =>
      have htake := transform_effects_countP_zero op.effective_delta sel
          (((sel.transform op.effective_delta).2).take k) (List.take_subset k _)
      simp only [commit_move, hsel]
      refine ⟨?_, ?_, ?_⟩ <;>
        simp [List.countP_append, List.countP_cons, htake.1, htake.2,
              HostEffect.isBeginTransaction, HostEffect.isCommitTransaction]

/-- Witness for `c4_commit_closes_transaction` at a concrete state, with the
host raising on the first translation (`raiseAt = some 0`). -/
theorem c4_commit_closes_transaction_witness :
    (MoveQuicklyToolPluginState.mk MoveQuicklyToolState.MOVING
        (some ⟨[SelectableObject.Instance ⟨[⟨1⟩], none, 0⟩ ⟨0, 0, 2, 2⟩ 1]⟩)
        (some (MoveOperation.text ⟨⟨0, 0⟩, 0, 0, 0, 0⟩)) 1 0).selection
      = some ⟨[SelectableObject.Instance ⟨[⟨1⟩], none, 0⟩ ⟨0, 0, 2, 2⟩ 1]⟩ ∧
    ((commit_move
        (MoveQuicklyToolPluginState.mk MoveQuicklyToolState.MOVING
          (some ⟨[SelectableObject.Instance ⟨[⟨1⟩], none, 0⟩ ⟨0, 0, 2, 2⟩ 1]⟩)
          (some (MoveOperation.text ⟨⟨0, 0⟩, 0, 0, 0, 0⟩)) 1 0)
        (some (MoveOperation.text ⟨⟨0, 0⟩, 0, 0, 0, 0⟩)) (some 0)
        ⟨fun _ => ⟨0, 0, 1, 1⟩, fun _ => ⟨0, 0, 1, 1⟩⟩ []).2.1.countP
        HostEffect.isBeginTransaction = 1 ∧
     (commit_move
        (MoveQuicklyToolPluginState.mk MoveQuicklyToolState.MOVING
          (some ⟨[SelectableObject.Instance ⟨[⟨1⟩], none, 0⟩ ⟨0, 0, 2, 2⟩ 1]⟩)
          (some (MoveOperation.text ⟨⟨0, 0⟩, 0, 0, 0, 0⟩)) 1 0)
        (some (MoveOperation.text ⟨⟨0, 0⟩, 0, 0, 0, 0⟩)) (some 0)
        ⟨fun _ => ⟨0, 0, 1, 1⟩, fun _ => ⟨0, 0, 1, 1⟩⟩ []).2.1.countP
        HostEffect.isCommitTransaction = 1 ∧
     (commit_move
        (MoveQuicklyToolPluginState.mk MoveQuicklyToolState.MOVING
          (some ⟨[SelectableObject.Instance ⟨[⟨1⟩], none, 0⟩ ⟨0, 0, 2, 2⟩ 1]⟩)
          (some (MoveOperation.text ⟨⟨0, 0⟩, 0, 0, 0, 0⟩)) 1 0)
        (some (MoveOperation.text ⟨⟨0, 0⟩, 0, 0, 0, 0⟩)) (some 0)
        ⟨fun _ => ⟨0, 0, 1, 1⟩, fun _ => ⟨0, 0, 1, 1⟩⟩ []).1.state
        = MoveQuicklyToolState.SELECTING) :=
  ⟨rfl,
   c4_commit_closes_transaction
     (MoveQuicklyToolPluginState.mk MoveQuicklyToolState.MOVING
        (some ⟨[SelectableObject.Instance ⟨[⟨1⟩], none, 0⟩ ⟨0, 0, 2, 2⟩ 1]⟩)
        (some (MoveOperation.text ⟨⟨0, 0⟩, 0, 0, 0, 0⟩)) 1 0)
     ⟨[SelectableObject.Instance ⟨[⟨1⟩], none, 0⟩ ⟨0, 0, 2, 2⟩ 1]⟩
     (MoveOperation.text ⟨⟨0, 0⟩, 0, 0, 0, 0⟩) (some 0)
     ⟨fun _ => ⟨0, 0, 1, 1⟩, fun _ => ⟨0, 0, 1, 1⟩⟩ [] rfl⟩

/-- Claim C2 (code bug): in the `MOVING` state with a non-empty selection and
no Shift modifier, the Enter/Return key branch of `key_event` calls
`self.commit_move()` without the required positional `operation` argument,
so the event handler raises a `TypeError` instead of committing the move; no
transaction is opened. -/
theorem c2_enter_raises_type_error :
    ∀ (st : MoveQuicklyToolPluginState) (sel : MoveQuicklyToolSelection)
      (buttons : ButtonState),
    st.state = MoveQuicklyToolState.MOVING →
    st.selection = some sel →
    buttons.shift = false →
    key_event st KeyCode.EnterOrReturn buttons = .error PyError.typeError := by
  intro st sel buttons _ hsel hshift
  simp [key_event, hshift, hsel]

/-- Witness for `c2_enter_raises_type_error` at a concrete `MOVING` state
with a one-member selection. -/
theorem c2_enter_raises_type_error_witness :
    (MoveQuicklyToolPluginState.mk MoveQuicklyToolState.MOVING
        (some ⟨[SelectableObject.Instance ⟨[⟨1⟩], none, 0⟩ ⟨0, 0, 2, 2⟩ 1]⟩)
        none 0 0).state = MoveQuicklyToolState.MOVING ∧
    (MoveQuicklyToolPluginState.mk MoveQuicklyToolState.MOVING
        (some ⟨[SelectableObject.Instance ⟨[⟨1⟩], none, 0⟩ ⟨0, 0, 2, 2⟩ 1]⟩)
        none 0 0).selection
      = some ⟨[SelectableObject.Instance ⟨[⟨1⟩], none, 0⟩ ⟨0, 0, 2, 2⟩ 1]⟩ ∧
    (ButtonState.mk false false false).shift = false ∧
    key_event
      (MoveQuicklyToolPluginState.mk MoveQuicklyToolState.MOVING
        (some ⟨[SelectableObject.Instance ⟨[⟨1⟩], none, 0⟩ ⟨0, 0, 2, 2⟩ 1]⟩)
        none 0 0)
      KeyCode.EnterOrReturn (ButtonState.mk false false false)
      = .error PyError.typeError :=
  ⟨rfl, rfl, rfl,
   c2_enter_raises_type_error
     (MoveQuicklyToolPluginState.mk MoveQuicklyToolState.MOVING
        (some ⟨[SelectableObject.Instance ⟨[⟨1⟩], none, 0⟩ ⟨0, 0, 2, 2⟩ 1]⟩)
        none 0 0)
     ⟨[SelectableObject.Instance ⟨[⟨1⟩], none, 0⟩ ⟨0, 0, 2, 2⟩ 1]⟩
     (ButtonState.mk false false false) rfl rfl rfl⟩

/-- Claim C9: for every key event with the Shift modifier held while the
tool is in the `MOVING` state, the handler returns (handled) with only the
state changed to `SELECTING` and the move-preview markers cleared: the
selection and move operation are untouched, the host-effect trace is empty
— so no transaction is opened and no geometry is mutated. -/
theorem c9_shift_cancels_moving :
    ∀ (st : MoveQuicklyToolPluginState) (key : KeyCode) (buttons : ButtonState),
    buttons.shift = true →
    st.state = MoveQuicklyToolState.MOVING →
    key_event st key buttons
      = .ok ({st with state := MoveQuicklyToolState.SELECTING,
                      move_preview_markers := 0}, [], true) := by
  intro st key buttons hshift hstate
  simp [key_event, hshift, hstate]

/-- Witness for `c9_shift_cancels_moving` at a concrete `MOVING` state with
Shift held. -/
theorem c9_shift_cancels_moving_witness :
    (ButtonState.mk true false false).shift = true ∧
    (MoveQuicklyToolPluginState.mk MoveQuicklyToolState.MOVING
        (some ⟨[SelectableObject.Instance ⟨[⟨1⟩], none, 0⟩ ⟨0, 0, 2, 2⟩ 1]⟩)
        none 3 2).state = MoveQuicklyToolState.MOVING ∧
    key_event
      (MoveQuicklyToolPluginState.mk MoveQuicklyToolState.MOVING
        (some ⟨[SelectableObject.Instance ⟨[⟨1⟩], none, 0⟩ ⟨0, 0, 2, 2⟩ 1]⟩)
        none 3 2)
      KeyCode.Other (ButtonState.mk true false false)
      = .ok (MoveQuicklyToolPluginState.mk MoveQuicklyToolState.SELECTING
              (some ⟨[SelectableObject.Instance ⟨[⟨1⟩], none, 0⟩ ⟨0, 0, 2, 2⟩ 1]⟩)
              none 0 2, [], true) :=
  ⟨rfl, rfl,
   c9_shift_cancels_moving
     (MoveQuicklyToolPluginState.mk MoveQuicklyToolState.MOVING
        (some ⟨[SelectableObject.Instance ⟨[⟨1⟩], none, 0⟩ ⟨0, 0, 2, 2⟩ 1]⟩)
        none 3 2)
     KeyCode.Other (ButtonState.mk true false false) rfl rfl⟩

/-- `pya.LayoutView.SelectionMode` as dispatched in `_select_objects`. -/
inductive SelectionMode
  | Add
  | Replace
  | Invert
deriving DecidableEq

/-- Identity of an object recorded in the `already_added_objects` set (a
`pya.Instance` or a `pya.Shape`). -/
inductive ObjId
  | instId (n : Nat)
  | shapeId (n : Nat)
deriving DecidableEq

/-- One depth-0 hit of `top_cell.begin_instances_rec_overlapping(search_box)`
(`move_tool_plugin.py` lines 624-640): the instance, its bbox transformed to
top-cell coordinates (`inst.bbox().transformed(iter.trans())`), and whether
the target cell is hidden in the view. -/
structure InstEntry where
  pathLen : Nat
  inst : Nat
  bboxFromTop : Box
  targetCellHidden : Bool
deriving DecidableEq

/-- One depth-0 hit of `top_cell.begin_shapes_rec_overlapping(lyr, search_box)`
for a visible layer (`move_tool_plugin.py` lines 642-654). -/
structure ShapeEntry where
  pathLen : Nat
  shape : Nat
  bbox : Box
deriving DecidableEq

/-- One not-hidden top cell with the iterator hits the host reports for the
search box, shapes concatenated over all visible layers. -/
structure TopCellData where
  hidden : Bool
  instEntries : List InstEntry
  shapeEntries : List ShapeEntry
deriving DecidableEq

/-- An element appended to `selected_objects` by `_select_objects` (the
`pya.ObjectInstPath` built from the iterator position, identified here by
the hit entry itself). -/
inductive HitRef
  | instHit (e : InstEntry)
  | shapeHit (e : ShapeEntry)
deriving DecidableEq

/-- The bounding box that `_select_objects` tested for this hit. -/
def HitRef.bbox : HitRef → Box
  | .instHit e => e.bboxFromTop
  | .shapeHit e => e.bbox

/-- The instance loop of `_select_objects` (`move_tool_plugin.py` lines
624-640): depth-0 entries not yet in the accumulator whose transformed bbox
matches the containment constraint and whose target cell is not hidden are
appended, and their instance identity recorded. -/
def scan_insts (cc : ContainmentConstraint) (search_box : Box) :
    List InstEntry → List HitRef → List ObjId → List HitRef × List ObjId
  | [], sel, already => (sel, already)
  | e :: rest, sel, already =>
    if e.pathLen = 0 then
      if ObjId.instId e.inst ∈ already then
        scan_insts cc search_box rest sel already
      else if cc.matches search_box e.bboxFromTop then
        if e.targetCellHidden then
          scan_insts cc search_box rest sel already
        else
          scan_insts cc search_box rest (sel ++ [.instHit e]) (already ++ [.instId e.inst])
      else
        scan_insts cc search_box rest sel already
    else
      scan_insts cc search_box rest sel already

/-- The shape loop of `_select_objects` (`move_tool_plugin.py` lines
642-654): depth-0 shapes not yet in the accumulator whose bbox matches the
containment constraint are appended. -/
def scan_shapes (cc : ContainmentConstraint) (search_box : Box) :
    List ShapeEntry → List HitRef → List ObjId → List HitRef × List ObjId
  | [], sel, already => (sel, already)
  | e :: rest, sel, already =>
    if e.pathLen = 0 then
      if ObjId.shapeId e.shape ∈ already then
        scan_shapes cc search_box rest sel already
      else if cc.matches search_box e.bbox then
        scan_shapes cc search_box rest (sel ++ [.shapeHit e]) (already ++ [.shapeId e.shape])
      else
        scan_shapes cc search_box rest sel already
    else
      scan_shapes cc search_box rest sel already

/-- The top-cell loop of `_select_objects` (`move_tool_plugin.py` lines
620-654): hidden cells are skipped, and the instance and shape scans only
run when `view.max_hier_levels >= 1`. -/
def scan_cells (cc : ContainmentConstraint) (search_box : Box) (maxHierLevels : Nat) :
    List TopCellData → List HitRef × List ObjId → List HitRef × List ObjId
  | [], acc => acc
  | cell :: rest, acc =>
    if cell.hidden then
      scan_cells cc search_box maxHierLevels rest acc
    else if 1 ≤ maxHierLevels then
      scan_cells cc search_box maxHierLevels rest
        (scan_shapes cc search_box cell.shapeEntries
          (scan_insts cc search_box cell.instEntries acc.1 acc.2).1
          (scan_insts cc search_box cell.instEntries acc.1 acc.2).2)
    else
      scan_cells cc search_box maxHierLevels rest acc

/-- `_select_objects` from `move_tool_plugin.py` lines 600-698, returning
the list assigned to `view.object_selection`.  In `Add` mode the source
executes `already_added_objects += [...]` although `already_added_objects`
has only a type annotation and no prior assignment, so Python raises an
`UnboundLocalError` before any scanning happens; in `Replace`/`Invert`
mode both accumulators start empty.  When at least two objects are found
and `allow_multiple` is false, a disambiguation menu reduces the result to
the chosen entry (`menuChoice`), or to nothing when cancelled. -/
def _select_objects (search_box : Box) (selection_mode : SelectionMode)
    (containment_constraint : ContainmentConstraint) (allow_multiple : Bool)
    (maxHierLevels : Nat) (top_cells : List TopCellData)
    (menuChoice : Option Nat) : Except PyError (List HitRef) :=
  match selection_mode with
  | .Add => .error PyError.unboundLocalError
  | .Replace | .Invert =>
    let scanned := scan_cells containment_constraint search_box maxHierLevels top_cells ([], [])
    let selected := scanned.1
    if 2 ≤ selected.length ∧ allow_multiple = false then
      match menuChoice with
      | some i =>
          .ok (match selected[i]? with
               | some x => [x]
               | none => [])
      | none => .ok []
    else
      .ok selected

/-- `select_objects_enclosed_by` from `move_tool_plugin.py` lines 710-714:
region selection always uses the `SEARCH_BOX_ENCLOSES_OBJECT` constraint
and allows multiple matches (so the disambiguation menu never runs). -/
def select_objects_enclosed_by (search_box : Box) (selection_mode : SelectionMode)
    (maxHierLevels : Nat) (top_cells : List TopCellData) : Except PyError (List HitRef) :=
  _select_objects search_box selection_mode
    ContainmentConstraint.SEARCH_BOX_ENCLOSES_OBJECT true maxHierLevels top_cells none

/-- Claim C3 (code bug): every `_select_objects` invocation with the
additive flag (`SelectionMode.Add`) raises an `UnboundLocalError` at
`already_added_objects += [...]` — the variable has only a type
annotation and was never assigned — so the claimed identity-based union
with the pre-existing selection never happens. -/
theorem c3_add_mode_raises :
    ∀ (search_box : Box) (cc : ContainmentConstraint) (allow_multiple : Bool)
      (maxHierLevels : Nat) (top_cells : List TopCellData) (menuChoice : Option Nat),
    _select_objects search_box SelectionMode.Add cc allow_multiple
        maxHierLevels top_cells menuChoice
      = .error PyError.unboundLocalError := by
  intro search_box cc allow_multiple maxHierLevels top_cells menuChoice
  rfl

lemma scan_insts_subset_or_matched (cc : ContainmentConstraint) (box : Box)
    (entries : List InstEntry) :
    ∀ (sel : List HitRef) (already : List ObjId) (h : HitRef),
      h ∈ (scan_insts cc box entries sel already).1 →
      h ∈ sel ∨ cc.matches box h.bbox = true := by
  induction entries with
  | nil => intro sel already h hmem; exact Or.inl hmem
  | cons e rest ih =>
      intro sel already h hmem
      simp only [scan_insts] at hmem
      split_ifs at hmem with hpath hin hmatch hhid
      all_goals try exact ih _ _ _ hmem
      rcases ih _ _ _ hmem with hs | hm
      · rcases List.mem_append.mp hs with h1 | h2
        · exact Or.inl h1
        · right
          have heq : h = HitRef.instHit e := by simpa using h2
          rw [heq]
          exact hmatch
      · exact Or.inr hm

lemma scan_shapes_subset_or_matched (cc : ContainmentConstraint) (box : Box)
    (entries : List ShapeEntry) :
    ∀ (sel : List HitRef) (already : List ObjId) (h : HitRef),
      h ∈ (scan_shapes cc box entries sel already).1 →
      h ∈ sel ∨ cc.matches box h.bbox = true := by
  induction entries with
  | nil => intro sel already h hmem; exact Or.inl hmem
  | cons e rest ih =>
      intro sel already h hmem
      simp only [scan_shapes] at hmem
      split_ifs at hmem with hpath hin hmatch
      all_goals try exact ih _ _ _ hmem
      rcases ih _ _ _ hmem with hs | hm
      · rcases List.mem_append.mp hs with h1 | h2
        · exact Or.inl h1
        · right
          have heq : h = HitRef.shapeHit e := by simpa using h2
          rw [heq]
          exact hmatch
      · exact Or.inr hm

lemma scan_cells_subset_or_matched (cc : ContainmentConstraint) (box : Box)
    (maxHierLevels : Nat) (cells : List TopCellData) :
    ∀ (acc : List HitRef × List ObjId) (h : HitRef),
      h ∈ (scan_cells cc box maxHierLevels cells acc).1 →
      h ∈ acc.1 ∨ cc.matches box h.bbox = true := by
  induction cells with
  | nil => intro acc h hmem; exact Or.inl hmem
  | cons cell rest ih =>
      intro acc h hmem
      simp only [scan_cells] at hmem
      split_ifs at hmem with hhid hmh
      · exact ih _ _ hmem
      · rcases ih _ _ hmem with h1 | hm
        · rcases scan_shapes_subset_or_matched cc box cell.shapeEntries _ _ _ h1 with h2 | hm
          · exact scan_insts_subset_or_matched cc box cell.instEntries _ _ _ h2
          · exact Or.inr hm
        · exact Or.inr hm
      · exact ih _ _ hmem

/-- Claim C7: every object selected by a select-in-rectangle invocation has
its bounding box fully enclosed by the search rectangle (a containment
test); an object whose bounding box merely touches the rectangle without
lying inside it (a straddler) is never selected. -/
theorem c7_enclosed_only :
    ∀ (search_box : Box) (selection_mode : SelectionMode) (maxHierLevels : Nat)
      (top_cells : List TopCellData) (out : List HitRef),
    select_objects_enclosed_by search_box selection_mode maxHierLevels top_cells
      = .ok out →
    ((∀ h ∈ out, h.bbox.inside search_box = true) ∧
     (∀ h : HitRef, h.bbox.touches search_box = true →
        h.bbox.inside search_box = false → h ∉ out)) := by
  intro search_box selection_mode maxHierLevels top_cells out hok
  have hall : ∀ h ∈ out, h.bbox.inside search_box = true := by
    intro h hmem
    cases selection_mode with
    | Add => exact absurd hok (by simp [select_objects_enclosed_by, _select_objects])
    | Replace =>
        simp [select_objects_enclosed_by, _select_objects] at hok
        subst hok
        rcases scan_cells_subset_or_matched
            ContainmentConstraint.SEARCH_BOX_ENCLOSES_OBJECT search_box
            maxHierLevels top_cells ([], []) h hmem with h1 | hm
        · simp at h1
        · simpa [ContainmentConstraint.matches] using hm
    | Invert =>
        simp [select_objects_enclosed_by, _select_objects] at hok
        subst hok
        rcases scan_cells_subset_or_matched
            ContainmentConstraint.SEARCH_BOX_ENCLOSES_OBJECT search_box
            maxHierLevels top_cells ([], []) h hmem with h1 | hm
        · simp at h1
        · simpa [ContainmentConstraint.matches] using hm
  refine ⟨hall, ?_⟩
  intro h _ hnin hmem
  rw [hall h hmem] at hnin
  exact Bool.noConfusion hnin

/-- Witness for `c7_enclosed_only`: searching the box `(0,0)-(10,10)` over
one top cell holding an enclosed instance, a straddling instance (bbox
`(5,5)-(20,20)` touches but is not inside) and a straddling shape selects
exactly the enclosed instance, whose bbox is indeed inside. -/
theorem c7_enclosed_only_witness :
    select_objects_enclosed_by ⟨0, 0, 10, 10⟩ SelectionMode.Replace 1
        [⟨false,
          [⟨0, 1, ⟨1, 1, 2, 2⟩, false⟩, ⟨0, 2, ⟨5, 5, 20, 20⟩, false⟩],
          [⟨0, 3, ⟨0, 0, 30, 30⟩⟩]⟩]
      = .ok [HitRef.instHit ⟨0, 1, ⟨1, 1, 2, 2⟩, false⟩] ∧
    (HitRef.instHit ⟨0, 1, ⟨1, 1, 2, 2⟩, false⟩).bbox.inside ⟨0, 0, 10, 10⟩ = true :=
  ⟨rfl,
   (c7_enclosed_only ⟨0, 0, 10, 10⟩ SelectionMode.Replace 1
      [⟨false,
        [⟨0, 1, ⟨1, 1, 2, 2⟩, false⟩, ⟨0, 2, ⟨5, 5, 20, 20⟩, false⟩],
        [⟨0, 3, ⟨0, 0, 30, 30⟩⟩]⟩]
      [HitRef.instHit ⟨0, 1, ⟨1, 1, 2, 2⟩, false⟩] rfl).1
     (HitRef.instHit ⟨0, 1, ⟨1, 1, 2, 2⟩, false⟩) (by decide)⟩

end MoveTool
